import Mathlib

/-!
# MSDK examples: SPI controller loop-back test, EXT_CLK clock switch, board bring-up

A shallow embedding of

* `Examples/MAX78002/SPI/main.c` (frame reformatting loop and the 2..16 bit
  transaction sequence),
* `Examples/MAX32670/EXT_CLK/main.c` (clock switch, BSP reinitialisation, revert),
* `Libraries/Boards/MAX32520/BCB/Source/board.c` (`Board_Init`, `Console_Init`),

followed by the properties established for them.

Machine integers are natural numbers / integers with explicit reduction modulo
`2^16` wherever a value is stored into a `uint16_t`.  Calls into the vendor
driver are oracles supplied by an environment record; every call that the
program makes is appended to an event trace so that ordering and "never
called" properties can be stated.
-/

/-! ## Error codes (`mxc_errors.h`) -/

/-- Modelled from the spec: `mxc_errors.h` is not part of the sources at hand.
The completion contract fixes "an error code of zero for success". -/
def E_NO_ERROR : Int := 0

/-- Modelled from the spec: `mxc_errors.h` is not part of the sources at hand.
`E_SUCCESS` is the second name of the zero success code. -/
def E_SUCCESS : Int := 0

/-- Modelled from the spec: `mxc_errors.h` is not part of the sources at hand.
Failures are reported with a nonzero code; the SDK header gives the
communication error the value `-9`. -/
def E_COMM_ERR : Int := -9

namespace SPI

/-! ## `Examples/MAX78002/SPI/main.c`: definitions -/

/-- Buffer length in words: `#define DATA_LEN 100 // Words`. -/
def DATA_LEN : Nat := 100

/-- Canonical pattern: `#define DATA_VALUE 0xA5B7`. -/
def DATA_VALUE : Nat := 0xA5B7

/-- All-ones word the mask is derived from: `#define VALUE 0xFFFF`. -/
def VALUE : Nat := 0xFFFF

/-- Storing an `int` expression into the `uint16_t temp` keeps the low 16 bits. -/
def toU16 (x : Nat) : Nat := x % 65536

/-- Body of the reformatting loop (`main.c` lines 208-225): the value written
to `tx_data[j]` when the frame size read back is `bits` and the buffer has
`dataLen` storage units.  The shift count `16 - bits` is only defined in C for
`bits ≤ 16`; `main` below guards the call accordingly. -/
def reformatUnit (dataLen bits j : Nat) : Nat :=
  if bits ≤ 8 then
    if j < dataLen / 2 then
      let temp := toU16 (VALUE >>> (16 - bits))
      let temp := toU16 ((temp <<< 8) ||| temp)
      let temp := toU16 (temp &&& DATA_VALUE)
      temp
    else if j = dataLen / 2 ∧ dataLen % 2 = 1 then
      let temp := toU16 (VALUE >>> (16 - bits))
      let temp := toU16 (temp &&& DATA_VALUE)
      temp
    else
      0x0000
  else
    let temp := toU16 (VALUE >>> (16 - bits))
    let temp := toU16 (temp &&& DATA_VALUE)
    temp

/-- The reformatting loop `for (j = 0; j < DATA_LEN; j++) { ... tx_data[j] = ...; }`
run on the buffer `tx`. -/
def reformat (dataLen bits : Nat) (tx : List Nat) : List Nat :=
  (List.range dataLen).foldl (fun buf j => buf.set j (reformatUnit dataLen bits j)) tx

/-- The fill loop `for (j = 0; j < DATA_LEN; j++) { tx_data[j] = DATA_VALUE; }`
(`main.c` lines 124-126) run on the buffer `tx`. -/
def fillTx (dataLen : Nat) (tx : List Nat) : List Nat :=
  (List.range dataLen).foldl (fun buf j => buf.set j DATA_VALUE) tx

/-- The expected buffer main compares against: `tx_data` after the fill loop and
the reformatting loop, starting from a zero-initialised global array. -/
def expectedTx (dataLen bits : Nat) : List Nat :=
  reformat dataLen bits (fillTx dataLen (List.replicate dataLen 0))

/-- The width mask of the property under test, `mask(w) = 0xFFFF >> (16 - w)`. -/
def mask (w : Nat) : Nat := 0xFFFF >>> (16 - w)

/-- The first (low) logical word of a 16-bit storage unit at frame width `w`: the low
byte when two sub-words share the unit (`w ≤ 8`), the whole unit otherwise. -/
def lowWord (unit w : Nat) : Nat := if w ≤ 8 then unit % 256 else unit % 65536

/-- The unpacking of the property under test: the first (low) logical word of a
storage unit, masked to `w` bits. -/
def unpack (unit w : Nat) : Nat := lowWord unit w &&& mask w

/-- The wide-frame word as the specification words it: the canonical pattern
"right-shifted to fit" (by `16 - w` bits) "and masked to width". -/
def shiftedPattern (w : Nat) : Nat := (DATA_VALUE >>> (16 - w)) &&& mask w

/-- Number of logical sub-words the loop body places into unit `j`: it follows the
branches of `reformatUnit` (two in a paired unit, one in a single-word unit, none in
a unit that is cleared to `0x0000`). -/
def unitWords (dataLen bits j : Nat) : Nat :=
  if bits ≤ 8 then
    if j < dataLen / 2 then 2
    else if j = dataLen / 2 ∧ dataLen % 2 = 1 then 1
    else 0
  else 1

/-- Number of logical sub-words held by the whole reformatted buffer. -/
def bufferWords (dataLen bits : Nat) : Nat :=
  ((List.range dataLen).map (unitWords dataLen bits)).sum

/-! ### The transaction sequence of `main` -/

/-- Completion handler `void SPI_Callback(void *data, int error) { SPI_FLAG = error; }`
as a transformer of the global `SPI_FLAG`: the new flag value. -/
def SPI_Callback (data : Nat) (error : Int) (SPI_FLAG : Int) : Int :=
  let _ := data
  let _ := SPI_FLAG
  error

/-- The condition of the wait loop `while (SPI_FLAG == 1) {}`. -/
def waitCondition (SPI_FLAG : Int) : Bool := SPI_FLAG == 1

/-- The calls `main` makes inside one pass of its `for (i = 2; i < 17; i++)` loop
(`CONTROLLER_DMA` is the selected build variant). -/
inductive Call where
  | init                 -- MXC_SPI_Init
  | printInitError       -- printf SPI INITIALIZATION ERROR
  | config               -- MXC_SPI_Config(&cfg) with cfg.frame_size = i
  | printConfigError     -- printf SPI CONFIGURATION ERROR
  | getTXChannel         -- MXC_SPI_DMA_GetTXChannel
  | getRXChannel         -- MXC_SPI_DMA_GetRXChannel
  | enableIrqTX          -- NVIC_EnableIRQ for the TX channel
  | enableIrqRX          -- NVIC_EnableIRQ for the RX channel
  | setVectorTX          -- MXC_NVIC_SetVector for the TX channel
  | setVectorRX          -- MXC_NVIC_SetVector for the RX channel
  | transactionDMA       -- MXC_SPI_ControllerTransactionDMA(&req)
  | getFrameSize         -- MXC_SPI_GetFrameSize
  | printFailed          -- printf Bits Transaction Failed
  | ledOn1               -- LED_On(1)
  | printSuccessful      -- printf Bits Transaction Successful
  | shutdown             -- MXC_SPI_Shutdown
  | printShutdownError   -- printf SPI SHUTDOWN ERROR
  deriving DecidableEq, Repr

/-- Observable events of `main`, in program order. -/
inductive Event where
  | banner                              -- the printf block of lines 107-119
  | step (width : Nat) (call : Call)    -- a call made during the pass for frame width i
  | printComplete                       -- printf Example Complete.
  | ledOn0                              -- LED_On(0)
  deriving DecidableEq, Repr

/-- How an execution of `main` ends. -/
inductive Outcome where
  | returned (code : Int)   -- a return statement was reached
  | spins                   -- the wait loop on SPI_FLAG never exits
  | undefinedShift          -- the shift count 16 - bits is negative
  deriving DecidableEq, Repr

/-- The driver as seen from `main`: for the pass with frame width `i`, what each
call hands back. -/
structure Env where
  /-- Result of `MXC_SPI_Init`. -/
  init : Nat → Int
  /-- Result of `MXC_SPI_Config`. -/
  config : Nat → Int
  /-- Status the driver passes to `SPI_Callback` for the submitted request;
  `none` when the completion callback is never invoked. -/
  callback : Nat → Option Int
  /-- Contents of `rx_data` (one entry per 16-bit unit) once the transaction has been
  waited for; `memcmp` over `sizeof(tx_data)` bytes is zero exactly when the two
  arrays agree unit by unit. -/
  rx : Nat → List Nat
  /-- Result of `MXC_SPI_GetFrameSize`. -/
  frameSize : Nat → Int
  /-- Result of `MXC_SPI_Shutdown`. -/
  shutdown : Nat → Int

/-- The statement `uint8_t bits = MXC_SPI_GetFrameSize(SPI);`. -/
def bitsOf (env : Env) (i : Nat) : Nat := (env.frameSize i % 256).toNat

/-- Value of `SPI_FLAG` seen by the wait loop: armed with `SPI_FLAG = 1` before the
request is submitted, then overwritten by `SPI_Callback` if the driver invokes it. -/
def flagAfter (env : Env) (i : Nat) : Int :=
  match env.callback i with
  | none => 1
  | some e => SPI_Callback 0 e 1

/-- Calls of one pass up to and including the submission of the DMA request. -/
def submitCalls : List Call :=
  [.init, .config, .getTXChannel, .getRXChannel, .enableIrqTX, .enableIrqRX,
   .setVectorTX, .setVectorRX, .transactionDMA]

/-- One pass of the `for (i = 2; i < 17; i++)` body (`main.c` lines 123-243) starting
with `tx_data = tx`.  Returns the events, the final `tx_data`, and `some o` when the
pass ends the program with outcome `o` (`none`: fall through to `i++`). -/
def pass (env : Env) (i : Nat) (tx : List Nat) : List Event × List Nat × Option Outcome :=
  let tx := fillTx DATA_LEN tx
  let retVal := env.init i
  if retVal ≠ E_NO_ERROR then
    ([.step i .init, .step i .printInitError], tx, some (.returned retVal))
  else
    let retVal := env.config i
    if retVal ≠ E_NO_ERROR then
      ([.step i .init, .step i .config, .step i .printConfigError], tx,
        some (.returned retVal))
    else
      let SPI_FLAG := flagAfter env i
      if waitCondition SPI_FLAG then
        (submitCalls.map (Event.step i), tx, some .spins)
      else
        let bits := bitsOf env i
        if 16 < bits then
          ((submitCalls ++ [Call.getFrameSize]).map (Event.step i), tx, some .undefinedShift)
        else
          let tx := reformat DATA_LEN bits tx
          if env.rx i ≠ tx then
            ((submitCalls ++ [Call.getFrameSize, Call.printFailed, Call.ledOn1]).map
                (Event.step i), tx, some (.returned E_COMM_ERR))
          else
            let retVal := env.shutdown i
            if retVal ≠ E_NO_ERROR then
              ((submitCalls ++ [Call.getFrameSize, Call.printSuccessful, Call.shutdown,
                  Call.printShutdownError]).map (Event.step i), tx, some (.returned retVal))
            else
              ((submitCalls ++ [Call.getFrameSize, Call.printSuccessful, Call.shutdown]).map
                  (Event.step i), tx, none)

/-- The loop `for (i = 2; i < 17; i++) { ... }` of `main` entered with the given `i` and
`tx_data = tx`, followed by the statements after the loop (lines 246-248). -/
def mainLoop (env : Env) (i : Nat) (tx : List Nat) : List Event × Outcome :=
  if _h : i < 17 then
    match pass env i tx with
    | (evs, _, some o) => (evs, o)
    | (evs, tx', none) =>
      let r := mainLoop env (i + 1) tx'
      (evs ++ r.1, r.2)
  else
    ([.printComplete, .ledOn0], .returned E_NO_ERROR)
termination_by 17 - i

/-- The program `int main(void)`: the banner, then the loop entered with `i = 2`; the
global `tx_data` starts zero-initialised. -/
def main (env : Env) : List Event × Outcome :=
  let r := mainLoop env 2 (List.replicate DATA_LEN 0)
  (.banner :: r.1, r.2)

/-- The passes for an explicit list of frame widths `ws`, run one after the other
until one of them ends the program, followed by the statements after the loop.
`mainLoop` entered with `i` is `runPasses` on the widths `i, i+1, ..., 16`. -/
def runPasses (env : Env) : List Nat → List Nat → List Event × Outcome
  | [], _ => ([.printComplete, .ledOn0], .returned E_NO_ERROR)
  | i :: ws, tx =>
    match pass env i tx with
    | (evs, _, some o) => (evs, o)
    | (evs, tx', none) =>
      let r := runPasses env ws tx'
      (evs ++ r.1, r.2)

/-- Calls of a pass in which every step succeeds. -/
def okCalls : List Call :=
  submitCalls ++ [Call.getFrameSize, Call.printSuccessful, Call.shutdown]

/-- Calls of a pass that ends in a buffer mismatch. -/
def mismatchCalls : List Call :=
  submitCalls ++ [Call.getFrameSize, Call.printFailed, Call.ledOn1]

/-- The wait loop of pass `i` exits and the frame size read back keeps the shift
count `16 - bits` non-negative. -/
def Settles (env : Env) (i : Nat) : Prop :=
  waitCondition (flagAfter env i) = false ∧ bitsOf env i ≤ 16

/-- Every checked step of pass `i` succeeds: `MXC_SPI_Init` and `MXC_SPI_Config`
return `E_NO_ERROR`, `rx_data` equals the expected buffer for the frame size read
back, and `MXC_SPI_Shutdown` returns `E_NO_ERROR`. -/
def StepOK (env : Env) (i : Nat) : Prop :=
  env.init i = E_NO_ERROR ∧ env.config i = E_NO_ERROR ∧
    env.rx i = expectedTx DATA_LEN (bitsOf env i) ∧ env.shutdown i = E_NO_ERROR

/-- A pass that runs to its end and falls through to `i++`: its wait loop exits, the
frame size read back is at most 16, and every checked step succeeds. -/
def PassOK (env : Env) (i : Nat) : Prop := Settles env i ∧ StepOK env i

/-- Calls of a pass that ends in a failing `MXC_SPI_Shutdown`. -/
def shutdownFailCalls : List Call :=
  submitCalls ++ [Call.getFrameSize, Call.printSuccessful, Call.shutdown,
    Call.printShutdownError]

/-- Events of `main` up to the start of the pass for frame width `k` when every
earlier pass ran to its end: the banner and the complete passes for 2, ..., k-1. -/
def ranBefore (k : Nat) : List Event :=
  Event.banner :: (List.range' 2 (k - 2)).flatMap (fun i => okCalls.map (Event.step i))

/-- A driver for which every step of every pass succeeds and the loop-back returns
exactly the expected buffer. -/
def loopbackEnv : Env where
  init := fun _ => 0
  config := fun _ => 0
  callback := fun _ => some 0
  rx := fun i => expectedTx DATA_LEN i
  frameSize := fun i => i
  shutdown := fun _ => 0

/-- A driver like `loopbackEnv` except that the completion callback is always invoked
with status `1`, the value the flag is armed with. -/
def stuckEnv : Env where
  init := fun _ => 0
  config := fun _ => 0
  callback := fun _ => some 1
  rx := fun i => expectedTx DATA_LEN i
  frameSize := fun i => i
  shutdown := fun _ => 0

/-- A driver for which `MXC_SPI_Init` fails with `-5` in the very first pass and the
completion callback would never be invoked at frame width 5. -/
def initFailsEnv : Env where
  init := fun i => if i = 2 then -5 else 0
  config := fun _ => 0
  callback := fun i => if i = 5 then none else some 0
  rx := fun i => expectedTx DATA_LEN i
  frameSize := fun i => i
  shutdown := fun _ => 0

/-- A driver like `loopbackEnv` except that nothing is received at frame width 3. -/
def brokenAt3Env : Env where
  init := fun _ => 0
  config := fun _ => 0
  callback := fun _ => some 0
  rx := fun i => if i = 3 then List.replicate DATA_LEN 0 else expectedTx DATA_LEN i
  frameSize := fun i => i
  shutdown := fun _ => 0

/-- The frame widths for which `main` submitted a DMA transaction, in order. -/
def transactions (tr : List Event) : List Nat :=
  tr.filterMap fun e =>
    match e with
    | .step w .transactionDMA => some w
    | _ => none

end SPI

namespace EXT_CLK

/-! ## `Examples/MAX32670/EXT_CLK/main.c`: definitions -/

/-- The two clock sources `main` selects (`mxc_sys_system_clock_t`). -/
inductive Clock where
  | EXTCLK   -- MXC_SYS_CLOCK_EXTCLK
  | IPO      -- MXC_SYS_CLOCK_IPO
  deriving DecidableEq, Repr

/-- Observable events of `main`, in program order. -/
inductive Event where
  | delaySec (s : Nat)          -- MXC_Delay(MXC_DELAY_SEC(s))
  | delay (us : Nat)            -- MXC_Delay(us)
  | printHeader                 -- the two printf lines 53-54
  | printCountdown (i : Nat)    -- printf of the countdown value
  | clockSelect (c : Clock)     -- MXC_SYS_Clock_Select(c)
  | printSwitchFailed (err : Int)
  | ledOn (n : Nat)
  | ledOff (n : Nat)
  | boardInit (result : Int)    -- Board_Init(), with the value it handed back
  | printSwitched               -- printf Successfully switched ...
  | printHello
  | printCount (count : Nat)    -- printf count = ...
  | printRevert                 -- printf Success!  Example complete ...
  | printDone                   -- printf Back on IPO.  Done!
  deriving DecidableEq, Repr

/-- The system layer as seen from `main`: the result of the `k`-th call of
`MXC_SYS_Clock_Select` (for its argument) and of the `k`-th call of `Board_Init`.
Both are calls into other translation units and are taken as returning calls. -/
structure Env where
  clockSelect : Nat → Clock → Int
  boardInit : Nat → Int

/-- The countdown `for (int i = 3; i > 0; i--) { printf; MXC_Delay(MXC_DELAY_SEC(1)); }`
entered with the given value of `i`. -/
def countdown : Nat → List Event
  | 0 => []
  | i + 1 => .printCountdown (i + 1) :: .delaySec 1 :: countdown i

/-- One pass of the body of `while (count <= 10)`. -/
def blink (count : Nat) : List Event :=
  [.ledOn 0, .delay 500000, .ledOff 0, .delay 500000, .printCount count]

/-- The loop `while (count <= 10) { ...; printf(..., count++); }` entered with the
given `count`: its events, the number of passes made, and the final `count`. -/
def countLoop (count : Nat) : List Event × Nat × Nat :=
  if count ≤ 10 then
    let r := countLoop (count + 1)
    (blink count ++ r.1, r.2.1 + 1, r.2.2)
  else
    ([], 0, count)
termination_by 11 - count

/-- Events before the first clock switch (lines 49-58). -/
def startup : List Event :=
  [.delaySec 2, .printHeader] ++ countdown 3

/-- The program `int main(void)`: event trace and return value. -/
def main (env : Env) : List Event × Int :=
  let err := env.clockSelect 0 .EXTCLK
  if err ≠ 0 then
    (startup ++ [.clockSelect .EXTCLK, .printSwitchFailed err, .ledOn 1], err)
  else
    let r0 := env.boardInit 0
    let loop := countLoop 0
    let _err := env.clockSelect 1 .IPO
    let r1 := env.boardInit 1
    (startup ++ [.clockSelect .EXTCLK, .boardInit r0, .printSwitched, .printHello]
      ++ loop.1 ++ [.printRevert, .clockSelect .IPO, .boardInit r1, .printDone],
      E_SUCCESS)

/-- A system layer on which both clock switches succeed while `Board_Init` reports
the failure code `-1` each time. -/
def reinitFailsEnv : Env where
  clockSelect := fun _ _ => 0
  boardInit := fun _ => -1

/-- A system layer on which the external clock cannot be selected (code `-2`). -/
def noExtClockEnv : Env where
  clockSelect := fun _ c => match c with
    | .EXTCLK => -2
    | .IPO => 0
  boardInit := fun _ => 0

/-- Whether an event is a clock selection or a BSP reinitialisation. -/
def isClockOrReinit : Event → Bool
  | .clockSelect _ => true
  | .boardInit _ => true
  | _ => false

/-- Whether an event is a clock selection. -/
def isClockSelect : Event → Bool
  | .clockSelect _ => true
  | _ => false

/-- Whether an event is a call of `Board_Init`. -/
def isBoardInit : Event → Bool
  | .boardInit _ => true
  | _ => false

end EXT_CLK

namespace Board

/-! ## `Libraries/Boards/MAX32520/BCB/Source/board.c`: definitions -/

/-- Observable events of the board bring-up, in program order. -/
inductive Event where
  | consoleInit     -- Console_Init()
  | uartInit        -- MXC_UART_Init(ConsoleUart, CONSOLE_BAUD)
  | pbInit          -- PB_Init()
  | ledInit         -- LED_Init()
  | printAssert     -- the printf inside mxc_assert
  deriving DecidableEq, Repr

/-- How a call of `Board_Init` ends. -/
inductive Outcome where
  | returned (code : Int)   -- a return statement was reached
  | halted                  -- stuck in the while (1) of mxc_assert
  deriving DecidableEq, Repr

/-- The collaborators of `board.c`: results of `MXC_UART_Init`, `PB_Init` and
`LED_Init`, and whether `MXC_ASSERT_FAIL()` expands to a call of `mxc_assert`
(`MXC_ASSERT_ENABLE` defined) or to nothing. -/
structure Env where
  uartInit : Int
  pbInit : Int
  ledInit : Int
  assertEnable : Bool

/-- Assertion handler `void mxc_assert(...) { printf(...); while (1) {} }`: prints and
never returns. -/
def mxc_assert : List Event × Outcome := ([.printAssert], .halted)

/-- The statement pair `MXC_ASSERT_FAIL(); return err;`: with assertions enabled the
macro calls `mxc_assert`, otherwise it is empty and the return statement runs. -/
def assertFailThenReturn (env : Env) (err : Int) : List Event × Outcome :=
  if env.assertEnable then mxc_assert else ([], .returned err)

/-- Function `int Console_Init(void)`: events and return value. -/
def Console_Init (env : Env) : List Event × Int :=
  let err := env.uartInit
  if err ≠ E_NO_ERROR then
    ([.uartInit], err)
  else
    ([.uartInit], E_NO_ERROR)

/-- Function `int Board_Init(void)`: events and outcome. -/
def Board_Init (env : Env) : List Event × Outcome :=
  let c := Console_Init env
  let err := c.2
  if err < E_NO_ERROR then
    let a := assertFailThenReturn env err
    (Event.consoleInit :: c.1 ++ a.1, a.2)
  else
    let err := env.pbInit
    if err ≠ E_NO_ERROR then
      let a := assertFailThenReturn env err
      (Event.consoleInit :: c.1 ++ Event.pbInit :: a.1, a.2)
    else
      let err := env.ledInit
      if err ≠ E_NO_ERROR then
        let a := assertFailThenReturn env err
        (Event.consoleInit :: c.1 ++ Event.pbInit :: Event.ledInit :: a.1, a.2)
      else
        (Event.consoleInit :: c.1 ++ [Event.pbInit, Event.ledInit], .returned E_NO_ERROR)

/-- Collaborators that all succeed, with assertions enabled. -/
def healthyEnv : Env where
  uartInit := 0
  pbInit := 0
  ledInit := 0
  assertEnable := true

/-- Collaborators for which `MXC_UART_Init` hands back the positive value `1` while
`PB_Init` and `LED_Init` succeed. -/
def positiveConsoleEnv : Env where
  uartInit := 1
  pbInit := 0
  ledInit := 0
  assertEnable := true

/-- Collaborators for which `PB_Init` fails with `-1`, with assertions compiled out. -/
def pbFailsEnv : Env where
  uartInit := 0
  pbInit := -1
  ledInit := 0
  assertEnable := false

/-- How `MXC_ASSERT_FAIL(); return err;` ends: halted in `mxc_assert` when assertions
are enabled, otherwise the return of `err`. -/
def failureOutcome (env : Env) (err : Int) : Outcome :=
  if env.assertEnable then .halted else .returned err

end Board

/-! ## Generic facts about index-wise buffer loops -/

/-- A loop that writes `f j` to slot `j` for `j = 0 .. k-1` leaves the first `k`
slots holding `f 0 .. f (k-1)` and the rest of the buffer untouched. -/
theorem foldl_set_range {α : Type} (f : Nat → α) (buf : List α) (k : Nat)
    (hk : k ≤ buf.length) :
    (List.range k).foldl (fun b j => b.set j (f j)) buf
      = (List.range k).map f ++ buf.drop k := by
  induction k with
  | zero => simp
  | succ k ih =>
    have hk2 : k < buf.length := hk
    rw [List.range_succ, List.foldl_append, ih (Nat.le_of_lt hk2)]
    simp only [List.foldl_cons, List.foldl_nil, List.map_append, List.map_cons, List.map_nil]
    rw [List.set_append]
    simp only [List.length_map, List.length_range, Nat.lt_irrefl, if_false, Nat.sub_self]
    rw [List.drop_eq_getElem_cons hk2, List.set_cons_zero]
    simp only [List.append_assoc, List.singleton_append]

/-- A full index-wise loop over a buffer of exactly `n` slots yields `f 0 .. f (n-1)`. -/
theorem foldl_set_range_full {α : Type} (f : Nat → α) (buf : List α) (n : Nat)
    (hn : buf.length = n) :
    (List.range n).foldl (fun b j => b.set j (f j)) buf = (List.range n).map f := by
  rw [foldl_set_range f buf n (by omega)]
  simp [← hn]

namespace SPI

theorem fillTx_replicate (n : Nat) :
    fillTx n (List.replicate n 0) = List.replicate n DATA_VALUE := by
  unfold fillTx
  rw [foldl_set_range_full (fun _ => DATA_VALUE) _ n (by simp)]
  apply List.ext_getElem <;> simp

theorem expectedTx_eq_map (n bits : Nat) :
    expectedTx n bits = (List.range n).map (reformatUnit n bits) := by
  unfold expectedTx reformat
  rw [foldl_set_range_full (reformatUnit n bits) _ n (by simp [fillTx_replicate])]

theorem expectedTx_length (n bits : Nat) : (expectedTx n bits).length = n := by
  simp [expectedTx_eq_map]

theorem expectedTx_getElem? (n bits j : Nat) (hj : j < n) :
    (expectedTx n bits)[j]? = some (reformatUnit n bits j) := by
  simp [expectedTx_eq_map, List.getElem?_map, List.getElem?_range hj]

theorem reformatUnit_wide (n w j : Nat) (h : 8 < w) :
    reformatUnit n w j = toU16 (toU16 (VALUE >>> (16 - w)) &&& DATA_VALUE) := by
  simp [reformatUnit, Nat.not_le.mpr h]

theorem reformatUnit_pair (n w j : Nat) (h : w ≤ 8) (hj : j < n / 2) :
    reformatUnit n w j
      = toU16 (toU16 ((toU16 (VALUE >>> (16 - w)) <<< 8) ||| toU16 (VALUE >>> (16 - w)))
          &&& DATA_VALUE) := by
  simp [reformatUnit, h, hj]

theorem reformatUnit_single (n w : Nat) (h : w ≤ 8) (hn : n % 2 = 1) :
    reformatUnit n w (n / 2) = toU16 (toU16 (VALUE >>> (16 - w)) &&& DATA_VALUE) := by
  simp [reformatUnit, h, hn]

theorem reformatUnit_pad (n w j : Nat) (h : w ≤ 8) (hj : ¬ j < n / 2)
    (hs : ¬ (j = n / 2 ∧ n % 2 = 1)) : reformatUnit n w j = 0 := by
  unfold reformatUnit
  rw [if_pos h, if_neg hj, if_neg hs]

/-- C1: for every frame width `w` in `[2,16]` and every non-padding storage unit `j`
(every `j` when `w > 8`, `j < DATA_LEN/2` when `w ≤ 8`), unpacking the unit the
reformatting loop stored gives back `DATA_VALUE & mask(w)`. -/
theorem unpack_pack_roundtrip (w j : Nat) (hw2 : 2 ≤ w) (hw16 : w ≤ 16)
    (hj : j < DATA_LEN) (hnp : 8 < w ∨ j < DATA_LEN / 2) :
    (expectedTx DATA_LEN w)[j]?.map (fun u => unpack u w) = some (DATA_VALUE &&& mask w) := by
  rw [expectedTx_getElem? _ _ _ hj, Option.map_some']
  by_cases h8 : w ≤ 8
  · have hj2 : j < DATA_LEN / 2 := by
      rcases hnp with h | h
      · omega
      · exact h
    rw [reformatUnit_pair _ _ _ h8 hj2]
    interval_cases w <;> decide
  · rw [reformatUnit_wide _ _ _ (by omega)]
    interval_cases w <;> first | omega | decide

theorem unpack_pack_roundtrip_witness :
    (expectedTx DATA_LEN 5)[3]?.map (fun u => unpack u 5) = some (DATA_VALUE &&& mask 5) :=
  unpack_pack_roundtrip 5 3 (by decide) (by decide) (by decide) (Or.inr (by decide))

/-- C2 (as stated) fails: at width 9 the loop stores `0xA5B7 & 0x1FF = 0x1B7` in unit 0,
whereas the pattern shifted right by `16 - 9` bits and masked is `0x14B`. -/
theorem wide_word_not_shifted :
    (expectedTx DATA_LEN 9)[0]? = some 0x01B7 ∧ shiftedPattern 9 = 0x014B ∧
      (expectedTx DATA_LEN 9)[0]? ≠ some (shiftedPattern 9) := by
  rw [expectedTx_getElem? _ _ _ (by decide)]
  decide

/-- C2 (amended): for every frame width `w` in 9..16 and every index `j < DATA_LEN`,
the reformatting loop stores `DATA_VALUE & (0xFFFF >> (16 - w))` in `tx_data[j]`:
the mask is shifted, the pattern is not; the word fits in `w` bits, is the same in
every unit (one word per unit, no pairing) and is never the zero padding. -/
theorem wide_word_masked (w j : Nat) (hw9 : 9 ≤ w) (hw16 : w ≤ 16) (hj : j < DATA_LEN) :
    (expectedTx DATA_LEN w)[j]? = some (DATA_VALUE &&& mask w) ∧
      DATA_VALUE &&& mask w < 2 ^ w ∧ DATA_VALUE &&& mask w ≠ 0 ∧
      unitWords DATA_LEN w j = 1 := by
  rw [expectedTx_getElem? _ _ _ hj, reformatUnit_wide _ _ _ (by omega)]
  have hu : unitWords DATA_LEN w j = 1 := by
    unfold unitWords
    rw [if_neg (by omega)]
  refine ⟨?_, ?_, ?_, hu⟩ <;> interval_cases w <;> decide

theorem wide_word_masked_witness :
    (expectedTx DATA_LEN 9)[0]? = some (DATA_VALUE &&& mask 9) ∧
      DATA_VALUE &&& mask 9 < 2 ^ 9 ∧ DATA_VALUE &&& mask 9 ≠ 0 ∧
      unitWords DATA_LEN 9 0 = 1 :=
  wide_word_masked 9 0 (by decide) (by decide) (by decide)

theorem sum_unitWords_range (n w k : Nat) (hw : w ≤ 8) :
    ((List.range k).map (unitWords n w)).sum
      = 2 * min k (n / 2) + (if n / 2 < k ∧ n % 2 = 1 then 1 else 0) := by
  induction k with
  | zero => simp
  | succ k ih =>
    rw [List.range_succ, List.map_append, List.sum_append, ih]
    simp only [List.map_cons, List.map_nil, List.sum_cons, List.sum_nil, unitWords, if_pos hw]
    split_ifs <;> omega

theorem bufferWords_narrow (n w : Nat) (hw : w ≤ 8) : bufferWords n w = n := by
  unfold bufferWords
  rw [sum_unitWords_range n w n hw]
  split_ifs <;> omega

/-- C3: for every frame width `w` in 2..8 and every buffer length `n`, with
`m = 0xFFFF >> (16 - w)`: every unit `j < n/2` has low byte `0xA5B7 & m` and high byte
`(0xA5B7 >> 8) & m`, both below `2^w`; for odd `n` unit `n/2` holds the single
sub-word `0xA5B7 & m`; every remaining unit is `0x0000`; the buffer holds exactly
`n = 2*(n/2) + n%2` logical sub-words; and for `n = 100` units 0..49 are paired and
units 50..99 are zero. -/
theorem narrow_words_paired (w n : Nat) (hw2 : 2 ≤ w) (hw8 : w ≤ 8) :
    (∀ j, j < n / 2 → ∃ u, (expectedTx n w)[j]? = some u ∧
        u % 256 = DATA_VALUE &&& mask w ∧ u / 256 = (DATA_VALUE >>> 8) &&& mask w ∧
        u % 256 < 2 ^ w ∧ u / 256 < 2 ^ w) ∧
    (n % 2 = 1 → (expectedTx n w)[n / 2]? = some (DATA_VALUE &&& mask w)) ∧
    (∀ j, j < n → ¬ j < n / 2 → ¬ (j = n / 2 ∧ n % 2 = 1) → (expectedTx n w)[j]? = some 0) ∧
    (bufferWords n w = n ∧ n = 2 * (n / 2) + n % 2) ∧
    (∀ j, j < 50 → (expectedTx 100 w)[j]? = some
        (256 * ((DATA_VALUE >>> 8) &&& mask w) + (DATA_VALUE &&& mask w))) ∧
    (∀ j, 50 ≤ j → j < 100 → (expectedTx 100 w)[j]? = some 0) := by
  refine ⟨?_, ?_, ?_, ⟨bufferWords_narrow n w hw8, by omega⟩, ?_, ?_⟩
  · intro j hj
    refine ⟨reformatUnit n w j, expectedTx_getElem? _ _ _ (by omega), ?_⟩
    rw [reformatUnit_pair _ _ _ hw8 hj]
    interval_cases w <;> decide
  · intro hn
    rw [expectedTx_getElem? _ _ _ (by omega), reformatUnit_single _ _ hw8 hn]
    interval_cases w <;> decide
  · intro j hj h1 h2
    rw [expectedTx_getElem? _ _ _ hj, reformatUnit_pad _ _ _ hw8 h1 h2]
  · intro j hj
    rw [expectedTx_getElem? _ _ _ (by omega), reformatUnit_pair _ _ _ hw8 (by omega)]
    interval_cases w <;> decide
  · intro j h1 h2
    rw [expectedTx_getElem? _ _ _ h2, reformatUnit_pad _ _ _ hw8 (by omega) (by omega)]

theorem narrow_words_paired_witness :
    (∃ u, (expectedTx 5 3)[1]? = some u ∧
        u % 256 = DATA_VALUE &&& mask 3 ∧ u / 256 = (DATA_VALUE >>> 8) &&& mask 3 ∧
        u % 256 < 2 ^ 3 ∧ u / 256 < 2 ^ 3) ∧
      (expectedTx 5 3)[5 / 2]? = some (DATA_VALUE &&& mask 3) ∧
      (expectedTx 5 3)[4]? = some 0 ∧ bufferWords 5 3 = 5 :=
  ⟨(narrow_words_paired 3 5 (by decide) (by decide)).1 1 (by decide),
   (narrow_words_paired 3 5 (by decide) (by decide)).2.1 (by decide),
   (narrow_words_paired 3 5 (by decide) (by decide)).2.2.1 4 (by decide) (by decide)
     (by decide),
   (narrow_words_paired 3 5 (by decide) (by decide)).2.2.2.1.1⟩

/-- C4 (as stated) fails: at frame width 8 unit 0 holds `0xA5B7`, whose first (low)
logical word is `0xB7`, not `0xA5`. -/
theorem low_word_at_8_not_A5 :
    (expectedTx DATA_LEN 8)[0]? = some 0xA5B7 ∧
      (expectedTx DATA_LEN 8)[0]?.map (fun u => unpack u 8) = some 0xB7 ∧
      (expectedTx DATA_LEN 8)[0]?.map (fun u => unpack u 8) ≠ some 0xA5 := by
  rw [expectedTx_getElem? _ _ _ (by decide)]
  decide

/-- C4 (amended): at frame width 8 with `DATA_LEN = 100`, the pattern masked to 8 bits
is `0xB7`: every non-padding unit `tx_data[j]`, `j < 50`, holds `0xA5B7`, its first
(low) logical word is `0xB7 = DATA_VALUE & 0xFF`, and `0xA5` is its second (high)
logical word. -/
theorem low_word_at_8 (j : Nat) (hj : j < 50) :
    (expectedTx DATA_LEN 8)[j]? = some 0xA5B7 ∧
      (expectedTx DATA_LEN 8)[j]?.map (fun u => unpack u 8) = some 0xB7 ∧
      (expectedTx DATA_LEN 8)[j]?.map (fun u => u / 256) = some 0xA5 ∧
      DATA_VALUE &&& mask 8 = 0xB7 := by
  have hj2 : j < DATA_LEN / 2 := by
    have : DATA_LEN / 2 = 50 := by decide
    omega
  have hj3 : j < DATA_LEN := by
    have : DATA_LEN = 100 := rfl
    omega
  rw [expectedTx_getElem? _ _ _ hj3, reformatUnit_pair _ _ _ (by decide) hj2]
  decide

theorem low_word_at_8_witness :
    (expectedTx DATA_LEN 8)[49]? = some 0xA5B7 ∧
      (expectedTx DATA_LEN 8)[49]?.map (fun u => unpack u 8) = some 0xB7 ∧
      (expectedTx DATA_LEN 8)[49]?.map (fun u => u / 256) = some 0xA5 ∧
      DATA_VALUE &&& mask 8 = 0xB7 :=
  low_word_at_8 49 (by decide)

/-! ### The transaction sequence -/

theorem fillTx_of_length (n : Nat) (tx : List Nat) (h : tx.length = n) :
    fillTx n tx = List.replicate n DATA_VALUE := by
  unfold fillTx
  rw [foldl_set_range_full (fun _ => DATA_VALUE) _ n h]
  apply List.ext_getElem <;> simp

theorem reformat_fillTx (n bits : Nat) (tx : List Nat) (h : tx.length = n) :
    reformat n bits (fillTx n tx) = expectedTx n bits := by
  rw [fillTx_of_length n tx h]
  unfold expectedTx
  rw [fillTx_replicate]

theorem pass_ok (env : Env) (i : Nat) (tx : List Nat) (htx : tx.length = DATA_LEN)
    (hs : Settles env i) (hok : StepOK env i) :
    pass env i tx = (okCalls.map (Event.step i), expectedTx DATA_LEN (bitsOf env i), none) := by
  obtain ⟨h1, h2, h3, h4⟩ := hok
  obtain ⟨hw, hb⟩ := hs
  unfold pass
  simp only [reformat_fillTx _ _ _ htx, h1, h2, h3, h4, hw, ne_eq, not_true_eq_false,
    if_false, Nat.not_lt.mpr hb, Bool.false_eq_true, okCalls]

theorem pass_mismatch (env : Env) (i : Nat) (tx : List Nat) (htx : tx.length = DATA_LEN)
    (hs : Settles env i) (h1 : env.init i = E_NO_ERROR) (h2 : env.config i = E_NO_ERROR)
    (h3 : env.rx i ≠ expectedTx DATA_LEN (bitsOf env i)) :
    pass env i tx = (mismatchCalls.map (Event.step i), expectedTx DATA_LEN (bitsOf env i),
      some (.returned E_COMM_ERR)) := by
  obtain ⟨hw, hb⟩ := hs
  unfold pass
  simp only [reformat_fillTx _ _ _ htx, h1, h2, h3, hw, ne_eq, not_true_eq_false,
    not_false_eq_true, if_true, if_false, Nat.not_lt.mpr hb, Bool.false_eq_true, mismatchCalls]

theorem runPasses_cons_ok (env : Env) (i : Nat) (ws : List Nat) (tx : List Nat)
    (htx : tx.length = DATA_LEN) (hs : Settles env i) (hok : StepOK env i) :
    runPasses env (i :: ws) tx
      = (okCalls.map (Event.step i) ++ (runPasses env ws (expectedTx DATA_LEN (bitsOf env i))).1,
          (runPasses env ws (expectedTx DATA_LEN (bitsOf env i))).2) := by
  simp only [runPasses, pass_ok env i tx htx hs hok]

/-- Events of the passes for the widths `ws` when every step of each succeeds. -/
theorem runPasses_ok (env : Env) (ws : List Nat) (tx : List Nat) (htx : tx.length = DATA_LEN)
    (h : ∀ i ∈ ws, Settles env i ∧ StepOK env i) :
    runPasses env ws tx
      = (ws.flatMap (fun i => okCalls.map (Event.step i)) ++ [.printComplete, .ledOn0],
          .returned E_NO_ERROR) := by
  induction ws generalizing tx with
  | nil => rfl
  | cons i ws ih =>
    have hi := h i (List.mem_cons_self _ _)
    have hrest : ∀ j ∈ ws, Settles env j ∧ StepOK env j :=
      fun j hj => h j (List.mem_cons_of_mem _ hj)
    rw [runPasses_cons_ok env i ws tx htx hi.1 hi.2,
      ih (expectedTx DATA_LEN (bitsOf env i)) (expectedTx_length _ _) hrest]
    simp only [List.flatMap_cons, List.append_assoc]

/-- The loop stops with `E_COMM_ERR` in the first pass whose buffers differ. -/
theorem runPasses_first_mismatch (env : Env) (pre post : List Nat) (k : Nat) (tx : List Nat)
    (htx : tx.length = DATA_LEN) (h : ∀ i ∈ pre, Settles env i ∧ StepOK env i)
    (hs : Settles env k) (h1 : env.init k = E_NO_ERROR) (h2 : env.config k = E_NO_ERROR)
    (h3 : env.rx k ≠ expectedTx DATA_LEN (bitsOf env k)) :
    runPasses env (pre ++ k :: post) tx
      = (pre.flatMap (fun i => okCalls.map (Event.step i))
            ++ mismatchCalls.map (Event.step k), .returned E_COMM_ERR) := by
  induction pre generalizing tx with
  | nil => simp [runPasses, pass_mismatch env k tx htx hs h1 h2 h3]
  | cons i pre ih =>
    have hi := h i (List.mem_cons_self _ _)
    have hrest : ∀ j ∈ pre, Settles env j ∧ StepOK env j :=
      fun j hj => h j (List.mem_cons_of_mem _ hj)
    rw [List.cons_append, runPasses_cons_ok env i _ tx htx hi.1 hi.2,
      ih (expectedTx DATA_LEN (bitsOf env i)) (expectedTx_length _ _) hrest]
    simp only [List.flatMap_cons, List.append_assoc]

/-- The loop entered with `i` runs the passes for the widths `i, i+1, ..., 16`. -/
theorem mainLoop_eq_runPasses (env : Env) (n i : Nat) (tx : List Nat) (h : i + n = 17) :
    mainLoop env i tx = runPasses env (List.range' i n) tx := by
  induction n generalizing i tx with
  | zero =>
    rw [mainLoop, dif_neg (by omega)]
    rfl
  | succ n ih =>
    rw [mainLoop, dif_pos (by omega), List.range'_succ, runPasses]
    rcases hp : pass env i tx with ⟨evs, tx', _ | o⟩
    · simp only [ih (i + 1) tx' (by omega)]
    · rfl

theorem main_eq_runPasses (env : Env) :
    main env = (Event.banner :: (runPasses env (List.range' 2 15)
        (List.replicate DATA_LEN 0)).1,
      (runPasses env (List.range' 2 15) (List.replicate DATA_LEN 0)).2) := by
  unfold main
  rw [mainLoop_eq_runPasses env 15 2 _ rfl]

theorem widths_split (k : Nat) (h2 : 2 ≤ k) (h16 : k ≤ 16) :
    List.range' 2 15 = List.range' 2 (k - 2) ++ k :: List.range' (k + 1) (16 - k) := by
  interval_cases k <;> rfl

theorem mem_okEvents (ws : List Nat) (w : Nat) (c : Call)
    (h : Event.step w c ∈ ws.flatMap (fun i => okCalls.map (Event.step i))) : w ∈ ws := by
  obtain ⟨i, hi, hmem⟩ := List.mem_flatMap.mp h
  obtain ⟨c', _, hc⟩ := List.mem_map.mp hmem
  have hw : i = w := by injection hc
  exact hw ▸ hi

theorem transactions_append (a b : List Event) :
    transactions (a ++ b) = transactions a ++ transactions b := by
  simp [transactions, List.filterMap_append]

theorem transactions_banner (l : List Event) :
    transactions (Event.banner :: l) = transactions l := by
  simp [transactions]

theorem transactions_okEvents (ws : List Nat) :
    transactions (ws.flatMap (fun i => okCalls.map (Event.step i))) = ws := by
  induction ws with
  | nil => rfl
  | cons i ws ih =>
    rw [List.flatMap_cons, transactions_append, ih]
    simp [transactions, okCalls, submitCalls]

theorem transactions_mismatch (k : Nat) :
    transactions (mismatchCalls.map (Event.step k)) = [k] := by
  simp [transactions, mismatchCalls, submitCalls]

theorem mem_widths_below (k i : Nat) (hk : 2 ≤ k) (hi : i ∈ List.range' 2 (k - 2)) :
    2 ≤ i ∧ i < k := by
  have := List.mem_range'_1.mp hi
  omega

/-- Every step of every pass succeeds: the full sequence 2..16 runs and `main`
returns `E_NO_ERROR`. -/
theorem main_all_ok (env : Env) (h : ∀ i, 2 ≤ i → i ≤ 16 → Settles env i ∧ StepOK env i) :
    main env = (Event.banner :: ((List.range' 2 15).flatMap
        (fun i => okCalls.map (Event.step i)) ++ [.printComplete, .ledOn0]),
      .returned E_NO_ERROR) := by
  rw [main_eq_runPasses]
  rw [runPasses_ok env _ _ (by simp) (fun i hi => by
    have := List.mem_range'_1.mp hi
    exact h i (by omega) (by omega))]

/-- The program stops with `E_COMM_ERR` in the first pass `k` whose buffers differ. -/
theorem main_first_mismatch (env : Env) (k : Nat) (hk2 : 2 ≤ k) (hk16 : k ≤ 16)
    (hpre : ∀ i, 2 ≤ i → i < k → Settles env i ∧ StepOK env i)
    (hs : Settles env k) (h1 : env.init k = E_NO_ERROR) (h2 : env.config k = E_NO_ERROR)
    (h3 : env.rx k ≠ expectedTx DATA_LEN (bitsOf env k)) :
    main env = (Event.banner :: ((List.range' 2 (k - 2)).flatMap
          (fun i => okCalls.map (Event.step i)) ++ mismatchCalls.map (Event.step k)),
        .returned E_COMM_ERR) := by
  rw [main_eq_runPasses, widths_split k hk2 hk16, runPasses_first_mismatch env (List.range' 2 (k - 2))
    (List.range' (k + 1) (16 - k)) k (List.replicate DATA_LEN 0) (by simp)
    (fun i hi => hpre i (mem_widths_below k i hk2 hi).1 (mem_widths_below k i hk2 hi).2)
    hs h1 h2 h3]

/-- No event of a trace `banner :: okEvents(2..k-1) ++ evs` belongs to a width above `k`
when `evs` belongs to width `k`. -/
theorem widths_le (k : Nat) (hk2 : 2 ≤ k) (evs : List Event)
    (hev : ∀ e ∈ evs, ∃ c, e = Event.step k c) (w : Nat) (c : Call)
    (h : Event.step w c ∈ Event.banner :: ((List.range' 2 (k - 2)).flatMap
          (fun i => okCalls.map (Event.step i)) ++ evs)) : w ≤ k := by
  rcases List.mem_cons.mp h with h | h
  · cases h
  · rcases List.mem_append.mp h with h | h
    · have := mem_widths_below k w hk2 (mem_okEvents _ w c h)
      omega
    · obtain ⟨c', hc⟩ := hev _ h
      have : w = k := by injection hc
      omega

theorem loopbackEnv_settles (i : Nat) (h2 : 2 ≤ i) (h16 : i ≤ 16) : Settles loopbackEnv i := by
  constructor
  · rfl
  · interval_cases i <;> decide

theorem loopbackEnv_ok (i : Nat) (h2 : 2 ≤ i) (h16 : i ≤ 16) : StepOK loopbackEnv i := by
  have hb : bitsOf loopbackEnv i = i := by interval_cases i <;> decide
  refine ⟨rfl, rfl, ?_, rfl⟩
  rw [hb]
  simp only [loopbackEnv]

theorem pass_init_fails (env : Env) (i : Nat) (tx : List Nat)
    (h1 : env.init i ≠ E_NO_ERROR) :
    pass env i tx = ([Call.init, Call.printInitError].map (Event.step i),
      fillTx DATA_LEN tx, some (.returned (env.init i))) := by
  unfold pass
  simp only [h1, ne_eq, not_false_eq_true, if_true, List.map_cons, List.map_nil]

theorem pass_config_fails (env : Env) (i : Nat) (tx : List Nat)
    (h1 : env.init i = E_NO_ERROR) (h2 : env.config i ≠ E_NO_ERROR) :
    pass env i tx = ([Call.init, Call.config, Call.printConfigError].map (Event.step i),
      fillTx DATA_LEN tx, some (.returned (env.config i))) := by
  unfold pass
  simp only [h1, h2, ne_eq, not_true_eq_false, not_false_eq_true, if_true, if_false,
    List.map_cons, List.map_nil]

theorem pass_spins (env : Env) (i : Nat) (tx : List Nat)
    (h1 : env.init i = E_NO_ERROR) (h2 : env.config i = E_NO_ERROR)
    (hw : waitCondition (flagAfter env i) = true) :
    pass env i tx = (submitCalls.map (Event.step i), fillTx DATA_LEN tx, some .spins) := by
  unfold pass
  simp only [h1, h2, hw, ne_eq, not_true_eq_false, if_true, if_false]

theorem pass_undefined (env : Env) (i : Nat) (tx : List Nat)
    (h1 : env.init i = E_NO_ERROR) (h2 : env.config i = E_NO_ERROR)
    (hw : waitCondition (flagAfter env i) = false) (hb : 16 < bitsOf env i) :
    pass env i tx = ((submitCalls ++ [Call.getFrameSize]).map (Event.step i),
      fillTx DATA_LEN tx, some .undefinedShift) := by
  unfold pass
  simp only [h1, h2, hw, hb, ne_eq, not_true_eq_false, if_true, if_false,
    Bool.false_eq_true]

theorem pass_shutdown_fails (env : Env) (i : Nat) (tx : List Nat)
    (htx : tx.length = DATA_LEN) (hs : Settles env i)
    (h1 : env.init i = E_NO_ERROR) (h2 : env.config i = E_NO_ERROR)
    (h3 : env.rx i = expectedTx DATA_LEN (bitsOf env i))
    (h4 : env.shutdown i ≠ E_NO_ERROR) :
    pass env i tx = (shutdownFailCalls.map (Event.step i),
      expectedTx DATA_LEN (bitsOf env i), some (.returned (env.shutdown i))) := by
  obtain ⟨hw, hb⟩ := hs
  unfold pass
  simp only [reformat_fillTx _ _ _ htx, h1, h2, h3, h4, hw, ne_eq, not_true_eq_false,
    not_false_eq_true, if_true, if_false, Nat.not_lt.mpr hb, Bool.false_eq_true,
    shutdownFailCalls]

/-- The loop stops in the first pass that ends the program, with that pass's events
and outcome. -/
theorem runPasses_first_stop (env : Env) (pre post : List Nat) (k : Nat) (tx : List Nat)
    (htx : tx.length = DATA_LEN) (h : ∀ i ∈ pre, Settles env i ∧ StepOK env i)
    (evs : List Event) (o : Outcome)
    (hp : ∀ t : List Nat, t.length = DATA_LEN → ∃ t', pass env k t = (evs, t', some o)) :
    runPasses env (pre ++ k :: post) tx
      = (pre.flatMap (fun i => okCalls.map (Event.step i)) ++ evs, o) := by
  induction pre generalizing tx with
  | nil =>
    obtain ⟨t', ht⟩ := hp tx htx
    simp [runPasses, ht]
  | cons i pre ih =>
    have hi := h i (List.mem_cons_self _ _)
    have hrest : ∀ j ∈ pre, Settles env j ∧ StepOK env j :=
      fun j hj => h j (List.mem_cons_of_mem _ hj)
    rw [List.cons_append, runPasses_cons_ok env i _ tx htx hi.1 hi.2,
      ih (expectedTx DATA_LEN (bitsOf env i)) (expectedTx_length _ _) hrest]
    simp only [List.flatMap_cons, List.append_assoc]

/-- The program stops in the first pass `k` that ends it: the trace is the banner, the
complete passes for 2..k-1 and the events of pass `k`. -/
theorem main_first_stop (env : Env) (k : Nat) (hk2 : 2 ≤ k) (hk16 : k ≤ 16)
    (hpre : ∀ i, 2 ≤ i → i < k → PassOK env i) (calls : List Call) (o : Outcome)
    (hp : ∀ t : List Nat, t.length = DATA_LEN →
      ∃ t', pass env k t = (calls.map (Event.step k), t', some o)) :
    main env = (ranBefore k ++ calls.map (Event.step k), o) := by
  rw [main_eq_runPasses, widths_split k hk2 hk16, runPasses_first_stop env
    (List.range' 2 (k - 2)) (List.range' (k + 1) (16 - k)) k (List.replicate DATA_LEN 0)
    (by simp)
    (fun i hi => hpre i (mem_widths_below k i hk2 hi).1 (mem_widths_below k i hk2 hi).2)
    (calls.map (Event.step k)) o hp]
  rfl

theorem transactions_ranBefore (k : Nat) (evs : List Event) :
    transactions (ranBefore k ++ evs) = List.range' 2 (k - 2) ++ transactions evs := by
  rw [transactions_append]
  unfold ranBefore
  rw [transactions_banner, transactions_okEvents]

theorem widths_le_ranBefore (k : Nat) (hk2 : 2 ≤ k) (calls : List Call) (w : Nat) (c : Call)
    (h : Event.step w c ∈ ranBefore k ++ calls.map (Event.step k)) : w ≤ k := by
  refine widths_le k hk2 (calls.map (Event.step k)) ?_ w c h
  intro e he
  obtain ⟨c', _, hc⟩ := List.mem_map.mp he
  exact ⟨c', hc.symm⟩

/-- Whatever goes wrong in the first pass `k` that does not run to its end, `main`
stops inside that pass and does not return `E_NO_ERROR`. -/
theorem main_first_stop_exists (env : Env) (k : Nat) (hk2 : 2 ≤ k) (hk16 : k ≤ 16)
    (hpre : ∀ i, 2 ≤ i → i < k → PassOK env i) (hbad : ¬ PassOK env k) :
    ∃ (calls : List Call) (o : Outcome),
      main env = (ranBefore k ++ calls.map (Event.step k), o) ∧
      o ≠ .returned E_NO_ERROR := by
  by_cases h1 : env.init k = E_NO_ERROR
  · by_cases h2 : env.config k = E_NO_ERROR
    · by_cases hw : waitCondition (flagAfter env k) = true
      · exact ⟨submitCalls, .spins, main_first_stop env k hk2 hk16 hpre _ _
          (fun t _ => ⟨_, pass_spins env k t h1 h2 hw⟩), by intro h; cases h⟩
      · have hw' : waitCondition (flagAfter env k) = false := by
          simpa using hw
        by_cases hb : 16 < bitsOf env k
        · exact ⟨submitCalls ++ [Call.getFrameSize], .undefinedShift,
            main_first_stop env k hk2 hk16 hpre _ _
              (fun t _ => ⟨_, pass_undefined env k t h1 h2 hw' hb⟩), by intro h; cases h⟩
        · have hs : Settles env k := ⟨hw', Nat.not_lt.mp hb⟩
          by_cases h3 : env.rx k = expectedTx DATA_LEN (bitsOf env k)
          · have h4 : env.shutdown k ≠ E_NO_ERROR := fun h4 => hbad ⟨hs, h1, h2, h3, h4⟩
            refine ⟨shutdownFailCalls, .returned (env.shutdown k),
              main_first_stop env k hk2 hk16 hpre _ _
                (fun t ht => ⟨_, pass_shutdown_fails env k t ht hs h1 h2 h3 h4⟩), ?_⟩
            intro h
            injection h with h
            exact h4 h
          · refine ⟨mismatchCalls, .returned E_COMM_ERR,
              main_first_stop env k hk2 hk16 hpre _ _
                (fun t ht => ⟨_, pass_mismatch env k t ht hs h1 h2 h3⟩), ?_⟩
            decide
    · refine ⟨[Call.init, Call.config, Call.printConfigError], .returned (env.config k),
        main_first_stop env k hk2 hk16 hpre _ _
          (fun t _ => ⟨_, pass_config_fails env k t h1 h2⟩), ?_⟩
      intro h
      injection h with h
      exact h2 h
  · refine ⟨[Call.init, Call.printInitError], .returned (env.init k),
      main_first_stop env k hk2 hk16 hpre _ _
        (fun t _ => ⟨_, pass_init_fails env k t h1⟩), ?_⟩
    intro h
    injection h with h
    exact h1 h

theorem stuckEnv_ok (i : Nat) (h2 : 2 ≤ i) (h16 : i ≤ 16) : StepOK stuckEnv i := by
  have hb : bitsOf stuckEnv i = i := by interval_cases i <;> decide
  refine ⟨rfl, rfl, ?_, rfl⟩
  rw [hb]
  simp only [stuckEnv]



theorem brokenAt3Env_mismatch :
    brokenAt3Env.rx 3 ≠ expectedTx DATA_LEN (bitsOf brokenAt3Env 3) := by
  intro h
  have h0 := congrArg (fun l => l[0]?) h
  have hb : bitsOf brokenAt3Env 3 = 3 := by decide
  simp only [hb, expectedTx_getElem? DATA_LEN 3 0 (by decide)] at h0
  revert h0
  decide

theorem brokenAt3Env_before (i : Nat) (h2 : 2 ≤ i) (h3 : i < 3) :
    Settles brokenAt3Env i ∧ StepOK brokenAt3Env i := by
  have hi : i = 2 := by omega
  subst hi
  exact ⟨⟨rfl, by decide⟩, rfl, rfl, by simp [brokenAt3Env, bitsOf], rfl⟩

/-- C5 (as stated) fails: with a driver for which Init, Config and Shutdown return
`E_NO_ERROR` and the received buffer equals the expected one at every width 2..16, but
whose completion callback delivers status `1`, `main` never leaves the wait loop of the
first pass: it does not return `E_NO_ERROR` (it does not return at all). -/
theorem all_steps_ok_yet_spins :
    (∀ i, 2 ≤ i → i ≤ 16 → StepOK stuckEnv i) ∧
      main stuckEnv = (Event.banner :: submitCalls.map (Event.step 2), .spins) ∧
      (main stuckEnv).2 ≠ .returned E_NO_ERROR := by
  have hm : main stuckEnv = (ranBefore 2 ++ submitCalls.map (Event.step 2), .spins) :=
    main_first_stop stuckEnv 2 (by decide) (by decide) (fun i h2 h3 => by omega)
      submitCalls .spins (fun t _ => ⟨_, pass_spins stuckEnv 2 t rfl rfl rfl⟩)
  refine ⟨stuckEnv_ok, ?_, ?_⟩
  · rw [hm]
    rfl
  · rw [hm]
    intro h
    cases h

/-- C5 (amended): `main` returns `E_NO_ERROR` exactly when every pass 2..16 runs to its
end (Init and Config return `E_NO_ERROR`, the wait loop on `SPI_FLAG` exits, the frame
size read back is at most 16, `rx_data` equals the expected buffer for it, Shutdown
returns `E_NO_ERROR`), and then the trace is the 15 complete passes in ascending order.
Otherwise `main` stops inside the first pass `k` that does not run to its end, right
after the failing step and with no call for any later width: it returns Init's,
Config's or Shutdown's own code or `E_COMM_ERR` (mismatch), it spins in the wait loop
when the flag still reads `1`, and the shift is undefined when the frame size exceeds
16; in none of these cases does it return `E_NO_ERROR`. -/
theorem main_result (env : Env) :
    ((main env).2 = .returned E_NO_ERROR ↔ ∀ i, 2 ≤ i → i ≤ 16 → PassOK env i) ∧
    ((∀ i, 2 ≤ i → i ≤ 16 → PassOK env i) →
      main env = (ranBefore 17 ++ [.printComplete, .ledOn0], .returned E_NO_ERROR) ∧
      transactions (main env).1 = [2, 3, 4, 5, 6, 7, 8, 9, 10, 11, 12, 13, 14, 15, 16]) ∧
    (∀ k, 2 ≤ k → k ≤ 16 → (∀ i, 2 ≤ i → i < k → PassOK env i) → ¬ PassOK env k →
      (env.init k ≠ E_NO_ERROR →
        main env = (ranBefore k ++ [Call.init, Call.printInitError].map (Event.step k),
          .returned (env.init k))) ∧
      (env.init k = E_NO_ERROR → env.config k ≠ E_NO_ERROR →
        main env = (ranBefore k
            ++ [Call.init, Call.config, Call.printConfigError].map (Event.step k),
          .returned (env.config k))) ∧
      (env.init k = E_NO_ERROR → env.config k = E_NO_ERROR →
        waitCondition (flagAfter env k) = true →
        main env = (ranBefore k ++ submitCalls.map (Event.step k), .spins)) ∧
      (env.init k = E_NO_ERROR → env.config k = E_NO_ERROR →
        waitCondition (flagAfter env k) = false → 16 < bitsOf env k →
        main env = (ranBefore k ++ (submitCalls ++ [Call.getFrameSize]).map (Event.step k),
          .undefinedShift)) ∧
      (env.init k = E_NO_ERROR → env.config k = E_NO_ERROR → Settles env k →
        env.rx k ≠ expectedTx DATA_LEN (bitsOf env k) →
        main env = (ranBefore k ++ mismatchCalls.map (Event.step k),
          .returned E_COMM_ERR)) ∧
      (env.init k = E_NO_ERROR → env.config k = E_NO_ERROR → Settles env k →
        env.rx k = expectedTx DATA_LEN (bitsOf env k) → env.shutdown k ≠ E_NO_ERROR →
        main env = (ranBefore k ++ shutdownFailCalls.map (Event.step k),
          .returned (env.shutdown k))) ∧
      (main env).2 ≠ .returned E_NO_ERROR ∧
      (∀ w c, Event.step w c ∈ (main env).1 → w ≤ k)) := by
  have hall : (∀ i, 2 ≤ i → i ≤ 16 → PassOK env i) →
      main env = (ranBefore 17 ++ [.printComplete, .ledOn0], .returned E_NO_ERROR) :=
    fun hok => main_all_ok env hok
  have hstop : ∀ k, 2 ≤ k → k ≤ 16 → (∀ i, 2 ≤ i → i < k → PassOK env i) →
      ¬ PassOK env k → (main env).2 ≠ .returned E_NO_ERROR ∧
        ∀ w c, Event.step w c ∈ (main env).1 → w ≤ k := by
    intro k hk2 hk16 hpre hbad
    obtain ⟨calls, o, hm, ho⟩ := main_first_stop_exists env k hk2 hk16 hpre hbad
    rw [hm]
    exact ⟨ho, fun w c hmem => widths_le_ranBefore k hk2 calls w c hmem⟩
  refine ⟨⟨?_, fun hok => by rw [hall hok]⟩, ?_, ?_⟩
  · intro hret
    by_contra hnot
    have hex : ∃ k, 2 ≤ k ∧ k ≤ 16 ∧ ¬ PassOK env k := by
      by_contra hno
      apply hnot
      intro i h2 h16
      by_contra hbad
      exact hno ⟨i, h2, h16, hbad⟩
    classical
    obtain ⟨hk2, hk16, hbad⟩ := Nat.find_spec hex
    have hmin : ∀ i, 2 ≤ i → i < Nat.find hex → PassOK env i := by
      intro i h2 hlt
      by_contra hb
      exact Nat.find_min hex hlt ⟨h2, by omega, hb⟩
    exact (hstop _ hk2 hk16 hmin hbad).1 hret
  · intro hok
    refine ⟨hall hok, ?_⟩
    rw [hall hok, transactions_ranBefore]
    rfl
  · intro k hk2 hk16 hpre hbad
    refine ⟨?_, ?_, ?_, ?_, ?_, ?_, hstop k hk2 hk16 hpre hbad⟩
    · intro h1
      exact main_first_stop env k hk2 hk16 hpre _ _
        (fun t _ => ⟨_, pass_init_fails env k t h1⟩)
    · intro h1 h2
      exact main_first_stop env k hk2 hk16 hpre _ _
        (fun t _ => ⟨_, pass_config_fails env k t h1 h2⟩)
    · intro h1 h2 hw
      exact main_first_stop env k hk2 hk16 hpre _ _
        (fun t _ => ⟨_, pass_spins env k t h1 h2 hw⟩)
    · intro h1 h2 hw hb
      exact main_first_stop env k hk2 hk16 hpre _ _
        (fun t _ => ⟨_, pass_undefined env k t h1 h2 hw hb⟩)
    · intro h1 h2 hs h3
      exact main_first_stop env k hk2 hk16 hpre _ _
        (fun t ht => ⟨_, pass_mismatch env k t ht hs h1 h2 h3⟩)
    · intro h1 h2 hs h3 h4
      exact main_first_stop env k hk2 hk16 hpre _ _
        (fun t ht => ⟨_, pass_shutdown_fails env k t ht hs h1 h2 h3 h4⟩)

theorem main_result_witness :
    (main loopbackEnv).2 = .returned E_NO_ERROR ∧
      transactions (main loopbackEnv).1
        = [2, 3, 4, 5, 6, 7, 8, 9, 10, 11, 12, 13, 14, 15, 16] ∧
      main brokenAt3Env = (ranBefore 3 ++ mismatchCalls.map (Event.step 3),
        .returned E_COMM_ERR) ∧
      main initFailsEnv = (ranBefore 2 ++ [Call.init, Call.printInitError].map (Event.step 2),
        .returned (-5)) :=
  ⟨(main_result loopbackEnv).1.mpr
      (fun i h2 h16 => ⟨loopbackEnv_settles i h2 h16, loopbackEnv_ok i h2 h16⟩),
   ((main_result loopbackEnv).2.1
      (fun i h2 h16 => ⟨loopbackEnv_settles i h2 h16, loopbackEnv_ok i h2 h16⟩)).2,
   ((main_result brokenAt3Env).2.2 3 (by decide) (by decide) brokenAt3Env_before
      (fun h => brokenAt3Env_mismatch h.2.2.2.1)).2.2.2.2.1 rfl rfl ⟨rfl, by decide⟩
      brokenAt3Env_mismatch,
   ((main_result initFailsEnv).2.2 2 (by decide) (by decide) (fun i h2 h3 => by omega)
      (fun h => absurd h.2.1 (by decide))).1 (by decide)⟩

/-- C6 (as stated) fails: with a driver whose loop-back delivers nothing at frame
width 3 (and works at every other width), `main` returns `E_COMM_ERR` right after the
pass for width 3; no transaction for width 4 is ever submitted. -/
theorem mismatch_at_3_stops :
    (main brokenAt3Env).2 = .returned E_COMM_ERR ∧
      transactions (main brokenAt3Env).1 = [2, 3] ∧
      Event.step 4 Call.transactionDMA ∉ (main brokenAt3Env).1 := by
  have hm := main_first_mismatch brokenAt3Env 3 (by decide) (by decide) brokenAt3Env_before
    ⟨rfl, by decide⟩ rfl rfl brokenAt3Env_mismatch
  rw [hm]
  refine ⟨rfl, ?_, ?_⟩
  · show transactions (Event.banner :: _) = _
    rw [transactions_banner, transactions_append, transactions_okEvents,
      transactions_mismatch]
    rfl
  · intro hmem
    have := widths_le 3 (by decide) (mismatchCalls.map (Event.step 3))
      (fun e he => by
        obtain ⟨c, _, hc⟩ := List.mem_map.mp he
        exact ⟨c, hc.symm⟩) 4 Call.transactionDMA hmem
    omega

/-- C6 (amended): when the received payload differs from the expected payload at frame
width `k` (all earlier widths having succeeded, Init and Config having succeeded at `k`,
the wait loops having exited), `main` reports the failure for that attempt (the
failure printf and `LED_On(1)`) and returns `E_COMM_ERR` at once: the transactions made
are those for widths 2..k and no call for any later width is made. -/
theorem mismatch_aborts (env : Env) (k : Nat) (hk2 : 2 ≤ k) (hk16 : k ≤ 16)
    (hpre : ∀ i, 2 ≤ i → i < k → Settles env i ∧ StepOK env i)
    (hs : Settles env k) (h1 : env.init k = E_NO_ERROR) (h2 : env.config k = E_NO_ERROR)
    (h3 : env.rx k ≠ expectedTx DATA_LEN (bitsOf env k)) :
    (main env).2 = .returned E_COMM_ERR ∧
      (main env).1 = Event.banner :: ((List.range' 2 (k - 2)).flatMap
          (fun i => okCalls.map (Event.step i)) ++ mismatchCalls.map (Event.step k)) ∧
      Event.step k Call.printFailed ∈ (main env).1 ∧
      Event.step k Call.ledOn1 ∈ (main env).1 ∧
      transactions (main env).1 = List.range' 2 (k - 2) ++ [k] ∧
      ∀ w c, Event.step w c ∈ (main env).1 → w ≤ k := by
  have hm := main_first_mismatch env k hk2 hk16 hpre hs h1 h2 h3
  rw [hm]
  refine ⟨rfl, rfl, ?_, ?_, ?_, ?_⟩
  · refine List.mem_cons_of_mem _ (List.mem_append_right _ ?_)
    exact List.mem_map.mpr ⟨_, by simp [mismatchCalls], rfl⟩
  · refine List.mem_cons_of_mem _ (List.mem_append_right _ ?_)
    exact List.mem_map.mpr ⟨_, by simp [mismatchCalls], rfl⟩
  · show transactions (Event.banner :: _) = _
    rw [transactions_banner, transactions_append, transactions_okEvents,
      transactions_mismatch]
  · intro w c hmem
    exact widths_le k hk2 (mismatchCalls.map (Event.step k))
      (fun e he => by
        obtain ⟨c', _, hc⟩ := List.mem_map.mp he
        exact ⟨c', hc.symm⟩) w c hmem

theorem mismatch_aborts_witness :
    (main brokenAt3Env).2 = .returned E_COMM_ERR ∧
      Event.step 3 Call.printFailed ∈ (main brokenAt3Env).1 ∧
      transactions (main brokenAt3Env).1 = List.range' 2 (3 - 2) ++ [3] :=
  ⟨(mismatch_aborts brokenAt3Env 3 (by decide) (by decide) brokenAt3Env_before
      ⟨rfl, by decide⟩ rfl rfl brokenAt3Env_mismatch).1,
   (mismatch_aborts brokenAt3Env 3 (by decide) (by decide) brokenAt3Env_before
      ⟨rfl, by decide⟩ rfl rfl brokenAt3Env_mismatch).2.2.1,
   (mismatch_aborts brokenAt3Env 3 (by decide) (by decide) brokenAt3Env_before
      ⟨rfl, by decide⟩ rfl rfl brokenAt3Env_mismatch).2.2.2.2.1⟩

/-! ### The completion flag -/

theorem flagAfter_some (env : Env) (i : Nat) (e : Int) (h : env.callback i = some e) :
    flagAfter env i = SPI_Callback 0 e 1 := by
  unfold flagAfter
  rw [h]

/-- C11: for every status code `e`, every data pointer and every previous flag value,
`SPI_Callback(data, e)` leaves `SPI_FLAG == e`, whatever `data` is; with the flag armed
to `1` by the caller, the condition of the wait loop `while (SPI_FLAG == 1)` is false
after the callback exactly when `e != 1`: it is false for success (`e = 0`) and for
every negative code, and it stays true while the armed value `1` is in the flag. -/
theorem callback_records_status (data : Nat) (e : Int) (flag : Int) :
    SPI_Callback data e flag = e ∧
      (∀ data' flag', SPI_Callback data' e flag' = SPI_Callback data e flag) ∧
      (waitCondition (SPI_Callback data e 1) = false ↔ e ≠ 1) ∧
      waitCondition (SPI_Callback data 0 1) = false ∧
      (e < 0 → waitCondition (SPI_Callback data e 1) = false) ∧
      waitCondition 1 = true ∧
      (∀ (env : Env) (i : Nat), env.callback i = some e →
        (waitCondition (flagAfter env i) = false ↔ e ≠ 1)) := by
  have hiff : ∀ d : Nat, waitCondition (SPI_Callback d e 1) = false ↔ e ≠ 1 := by
    intro d
    simp [waitCondition, SPI_Callback]
  refine ⟨rfl, fun _ _ => rfl, hiff data, rfl, ?_, rfl, ?_⟩
  · intro hneg
    exact (hiff data).mpr (by omega)
  · intro env i h
    rw [flagAfter_some env i e h]
    exact hiff 0

theorem callback_records_status_witness :
    SPI_Callback 7 (-3) 1 = -3 ∧ waitCondition (SPI_Callback 7 (-3) 1) = false :=
  ⟨(callback_records_status 7 (-3) 1).1,
   (callback_records_status 7 (-3) 1).2.2.2.2.1 (by decide)⟩

end SPI

namespace EXT_CLK

/-! ## `Examples/MAX32670/EXT_CLK/main.c`: properties -/

theorem countLoop_zero : countLoop 0 = ((List.range 11).flatMap blink, 11, 11) := by
  simp [countLoop]
  decide

theorem filter_startup_clockOrReinit : startup.filter isClockOrReinit = [] := by decide

theorem filter_startup_clockSelect : startup.filter isClockSelect = [] := by decide

theorem filter_startup_boardInit : startup.filter isBoardInit = [] := by decide

theorem filter_blinks_clockOrReinit :
    ((List.range 11).flatMap blink).filter isClockOrReinit = [] := by decide

theorem main_switch_failed (env : Env) (h : env.clockSelect 0 .EXTCLK ≠ 0) :
    main env = (startup ++ [.clockSelect .EXTCLK,
      .printSwitchFailed (env.clockSelect 0 .EXTCLK), .ledOn 1], env.clockSelect 0 .EXTCLK) := by
  unfold main
  simp only [ne_eq, h, not_false_eq_true, if_true]

theorem main_switch_ok (env : Env) (h : env.clockSelect 0 .EXTCLK = 0) :
    main env = (startup ++ [.clockSelect .EXTCLK, .boardInit (env.boardInit 0),
        .printSwitched, .printHello] ++ (List.range 11).flatMap blink
        ++ [.printRevert, .clockSelect .IPO, .boardInit (env.boardInit 1), .printDone],
      E_SUCCESS) := by
  unfold main
  simp only [ne_eq, h, not_true_eq_false, if_false, countLoop_zero]

/-- C7: for every nonzero result `err` of the first `MXC_SYS_Clock_Select(EXTCLK)`,
`main` returns exactly `err`, `Board_Init` is never invoked, and the only clock
selection in the whole run is that first one. -/
theorem switch_failure_aborts (env : Env) (h : env.clockSelect 0 .EXTCLK ≠ 0) :
    (main env).2 = env.clockSelect 0 .EXTCLK ∧
      (main env).1.filter isBoardInit = [] ∧
      (main env).1.filter isClockSelect = [.clockSelect .EXTCLK] ∧
      (main env).1 = startup ++ [.clockSelect .EXTCLK,
        .printSwitchFailed (env.clockSelect 0 .EXTCLK), .ledOn 1] := by
  rw [main_switch_failed env h]
  refine ⟨rfl, ?_, ?_, rfl⟩
  · rw [List.filter_append, filter_startup_boardInit]
    rfl
  · rw [List.filter_append, filter_startup_clockSelect]
    rfl

theorem switch_failure_aborts_witness :
    (main noExtClockEnv).2 = -2 ∧
      (main noExtClockEnv).1.filter isBoardInit = [] ∧
      (main noExtClockEnv).1.filter isClockSelect = [.clockSelect .EXTCLK] :=
  ⟨(switch_failure_aborts noExtClockEnv (by decide)).1,
   (switch_failure_aborts noExtClockEnv (by decide)).2.1,
   (switch_failure_aborts noExtClockEnv (by decide)).2.2.1⟩

/-- C8: whenever the first `MXC_SYS_Clock_Select(EXTCLK)` succeeds, the clock/reinit
calls of `main` are exactly Select(EXTCLK), Board_Init, Select(IPO), Board_Init; the
count loop runs exactly 11 passes (count 0 through 10, leaving `count = 11`) between
the first reinit and the switch back to the IPO, which is the last clock selection. -/
theorem switch_reinit_sequence (env : Env) (h : env.clockSelect 0 .EXTCLK = 0) :
    (main env).1.filter isClockOrReinit
        = [.clockSelect .EXTCLK, .boardInit (env.boardInit 0),
           .clockSelect .IPO, .boardInit (env.boardInit 1)] ∧
      (main env).1 = startup ++ [.clockSelect .EXTCLK, .boardInit (env.boardInit 0),
          .printSwitched, .printHello]
        ++ (List.range 11).flatMap blink
        ++ [.printRevert, .clockSelect .IPO, .boardInit (env.boardInit 1), .printDone] ∧
      countLoop 0 = ((List.range 11).flatMap blink, 11, 11) := by
  rw [main_switch_ok env h]
  refine ⟨?_, rfl, countLoop_zero⟩
  simp only [List.filter_append, filter_startup_clockOrReinit, filter_blinks_clockOrReinit,
    List.nil_append, List.append_nil]
  rfl

theorem switch_reinit_sequence_witness :
    (main reinitFailsEnv).1.filter isClockOrReinit
        = [.clockSelect .EXTCLK, .boardInit (-1), .clockSelect .IPO, .boardInit (-1)] :=
  (switch_reinit_sequence reinitFailsEnv rfl).1

/-- C9 (as stated) fails: the clock switch succeeds, `Board_Init` hands back the
failure code `-1` both times, and `main` still returns `E_SUCCESS`. -/
theorem reinit_failure_not_surfaced :
    reinitFailsEnv.clockSelect 0 .EXTCLK = 0 ∧ reinitFailsEnv.boardInit 0 ≠ 0 ∧
      Event.boardInit (-1) ∈ (main reinitFailsEnv).1 ∧
      (main reinitFailsEnv).2 = E_SUCCESS := by
  rw [main_switch_ok reinitFailsEnv rfl]
  refine ⟨rfl, by decide, ?_, rfl⟩
  simp [reinitFailsEnv]

/-- C9 (amended): if the clock switch is applied successfully, `main` discards the
value `Board_Init` returns: whatever the two `Board_Init` calls (and the second clock
selection) hand back, the workflow runs to its end and `main` returns `E_SUCCESS`;
only a failed first clock switch changes the result of `main`. -/
theorem reinit_result_discarded (env : Env) (h : env.clockSelect 0 .EXTCLK = 0) :
    (main env).2 = E_SUCCESS ∧
      (main env).1.filter isClockOrReinit
        = [.clockSelect .EXTCLK, .boardInit (env.boardInit 0),
           .clockSelect .IPO, .boardInit (env.boardInit 1)] := by
  rw [main_switch_ok env h]
  refine ⟨rfl, ?_⟩
  simp only [List.filter_append, filter_startup_clockOrReinit, filter_blinks_clockOrReinit,
    List.nil_append, List.append_nil]
  rfl

theorem reinit_result_discarded_witness :
    reinitFailsEnv.boardInit 0 = -1 ∧ (main reinitFailsEnv).2 = E_SUCCESS :=
  ⟨rfl, (reinit_result_discarded reinitFailsEnv rfl).1⟩

end EXT_CLK

namespace Board

/-! ## `Libraries/Boards/MAX32520/BCB/Source/board.c`: properties -/

theorem Console_Init_eq (env : Env) : Console_Init env = ([.uartInit], env.uartInit) := by
  unfold Console_Init
  by_cases h : env.uartInit = E_NO_ERROR
  · simp [h]
  · simp [h]

/-- C10: whenever `Console_Init`, `PB_Init` and `LED_Init` each return `E_NO_ERROR`,
`Board_Init` calls each of them exactly once, in this order, never enters
`mxc_assert`, and returns `E_NO_ERROR`; and `Console_Init` returns `E_NO_ERROR`
exactly when `MXC_UART_Init` does, otherwise that call's error code unchanged. -/
theorem Board_Init_success (env : Env) :
    ((Console_Init env).2 = E_NO_ERROR → env.pbInit = E_NO_ERROR →
        env.ledInit = E_NO_ERROR →
        Board_Init env
          = ([.consoleInit, .uartInit, .pbInit, .ledInit], .returned E_NO_ERROR) ∧
        Event.printAssert ∉ (Board_Init env).1) ∧
      ((Console_Init env).2 = E_NO_ERROR ↔ env.uartInit = E_NO_ERROR) ∧
      (env.uartInit ≠ E_NO_ERROR → (Console_Init env).2 = env.uartInit) ∧
      (Console_Init env).1 = [.uartInit] := by
  refine ⟨?_, by rw [Console_Init_eq], fun _ => by rw [Console_Init_eq], by rw [Console_Init_eq]⟩
  intro hc hp hl
  have hb : Board_Init env
      = ([.consoleInit, .uartInit, .pbInit, .ledInit], .returned E_NO_ERROR) := by
    rw [Console_Init_eq] at hc
    simp only at hc
    unfold Board_Init
    simp only [Console_Init_eq, hc, hp, hl, lt_self_iff_false, if_false, ne_eq,
      not_true_eq_false, List.cons_append, List.nil_append]
  rw [hb]
  exact ⟨rfl, by decide⟩

theorem Board_Init_success_witness :
    Board_Init healthyEnv
        = ([.consoleInit, .uartInit, .pbInit, .ledInit], .returned E_NO_ERROR) ∧
      Event.printAssert ∉ (Board_Init healthyEnv).1 :=
  (Board_Init_success healthyEnv).1 rfl rfl rfl

theorem assertFailThenReturn_outcome (env : Env) (err : Int) :
    (assertFailThenReturn env err).2 = failureOutcome env err := by
  unfold assertFailThenReturn failureOutcome mxc_assert
  cases env.assertEnable <;> rfl

theorem assertFailThenReturn_events (env : Env) (err : Int) :
    (assertFailThenReturn env err).1 = [] ∨
      (assertFailThenReturn env err).1 = [Event.printAssert] := by
  unfold assertFailThenReturn mxc_assert
  cases env.assertEnable
  · exact Or.inl rfl
  · exact Or.inr rfl

theorem failureOutcome_ne (env : Env) (err : Int) (h : err ≠ E_NO_ERROR) :
    failureOutcome env err ≠ .returned E_NO_ERROR := by
  unfold failureOutcome
  cases env.assertEnable
  · intro hc
    injection hc with hc
    exact h hc
  · intro hc
    cases hc

theorem Board_Init_console_fails (env : Env) (h : env.uartInit < E_NO_ERROR) :
    Board_Init env = (Event.consoleInit :: Event.uartInit ::
      (assertFailThenReturn env env.uartInit).1, failureOutcome env env.uartInit) := by
  unfold Board_Init
  simp only [Console_Init_eq, h, if_true, List.cons_append, List.nil_append,
    assertFailThenReturn_outcome]

theorem Board_Init_pb_fails (env : Env) (hc : ¬ env.uartInit < E_NO_ERROR)
    (h : env.pbInit ≠ E_NO_ERROR) :
    Board_Init env = (Event.consoleInit :: Event.uartInit :: Event.pbInit ::
      (assertFailThenReturn env env.pbInit).1, failureOutcome env env.pbInit) := by
  unfold Board_Init
  simp only [Console_Init_eq, hc, h, ne_eq, not_false_eq_true, if_true, if_false,
    List.cons_append, List.nil_append, assertFailThenReturn_outcome]

theorem Board_Init_led_fails (env : Env) (hc : ¬ env.uartInit < E_NO_ERROR)
    (hp : env.pbInit = E_NO_ERROR) (h : env.ledInit ≠ E_NO_ERROR) :
    Board_Init env = (Event.consoleInit :: Event.uartInit :: Event.pbInit ::
      Event.ledInit :: (assertFailThenReturn env env.ledInit).1,
      failureOutcome env env.ledInit) := by
  unfold Board_Init
  simp only [Console_Init_eq, hc, hp, h, ne_eq, not_true_eq_false, not_false_eq_true,
    if_true, if_false, List.cons_append, List.nil_append, assertFailThenReturn_outcome]

theorem Board_Init_all_pass (env : Env) (hc : ¬ env.uartInit < E_NO_ERROR)
    (hp : env.pbInit = E_NO_ERROR) (hl : env.ledInit = E_NO_ERROR) :
    Board_Init env = ([.consoleInit, .uartInit, .pbInit, .ledInit],
      .returned E_NO_ERROR) := by
  unfold Board_Init
  simp only [Console_Init_eq, hc, hp, hl, ne_eq, not_true_eq_false, if_false,
    List.cons_append, List.nil_append]

theorem not_mem_failure_events (env : Env) (err : Int) (e : Event)
    (he : e ≠ Event.printAssert) : e ∉ (assertFailThenReturn env err).1 := by
  rcases assertFailThenReturn_events env err with h | h <;> rw [h]
  · exact List.not_mem_nil _
  · intro hm
    exact he (List.mem_singleton.mp hm)

/-- C12 (as stated) fails: `Console_Init` returns the nonzero code `1`, yet `Board_Init`
goes on to call `PB_Init` and `LED_Init` and returns `E_NO_ERROR`. -/
theorem positive_console_code_passes :
    (Console_Init positiveConsoleEnv).2 = 1 ∧
      (Console_Init positiveConsoleEnv).2 ≠ E_NO_ERROR ∧
      Board_Init positiveConsoleEnv
        = ([.consoleInit, .uartInit, .pbInit, .ledInit], .returned E_NO_ERROR) := by
  decide

/-- C12 (amended): `Board_Init` short-circuits on the first failing initializer, where
failing means a negative code from `Console_Init` and a code other than `E_NO_ERROR`
from `PB_Init` or `LED_Init`: no later initializer is invoked and `Board_Init` does
not return `E_NO_ERROR` (it halts in `mxc_assert` when assertions are enabled and
otherwise returns the failing initializer's code).  `Board_Init` returns `E_NO_ERROR`
exactly when `Console_Init` returned a non-negative code and `PB_Init` and `LED_Init`
each returned `E_NO_ERROR`. -/
theorem Board_Init_short_circuits (env : Env) :
    ((Console_Init env).2 < E_NO_ERROR →
        Event.pbInit ∉ (Board_Init env).1 ∧ Event.ledInit ∉ (Board_Init env).1 ∧
        (Board_Init env).2 = failureOutcome env (Console_Init env).2 ∧
        (Board_Init env).2 ≠ .returned E_NO_ERROR) ∧
      (¬ (Console_Init env).2 < E_NO_ERROR → env.pbInit ≠ E_NO_ERROR →
        Event.ledInit ∉ (Board_Init env).1 ∧
        (Board_Init env).2 = failureOutcome env env.pbInit ∧
        (Board_Init env).2 ≠ .returned E_NO_ERROR) ∧
      (¬ (Console_Init env).2 < E_NO_ERROR → env.pbInit = E_NO_ERROR →
        env.ledInit ≠ E_NO_ERROR →
        (Board_Init env).2 = failureOutcome env env.ledInit ∧
        (Board_Init env).2 ≠ .returned E_NO_ERROR) ∧
      ((Board_Init env).2 = .returned E_NO_ERROR ↔
        ¬ (Console_Init env).2 < E_NO_ERROR ∧ env.pbInit = E_NO_ERROR ∧
          env.ledInit = E_NO_ERROR) ∧
      (∀ err, failureOutcome env err = (if env.assertEnable then .halted else .returned err))
      := by
  have hcon : (Console_Init env).2 = env.uartInit := by rw [Console_Init_eq]
  rw [hcon]
  have h1 : env.uartInit < E_NO_ERROR →
      Event.pbInit ∉ (Board_Init env).1 ∧ Event.ledInit ∉ (Board_Init env).1 ∧
      (Board_Init env).2 = failureOutcome env env.uartInit ∧
      (Board_Init env).2 ≠ .returned E_NO_ERROR := by
    intro h
    rw [Board_Init_console_fails env h]
    have hne : env.uartInit ≠ E_NO_ERROR := fun h0 => by
      rw [h0] at h
      exact lt_irrefl _ h
    refine ⟨?_, ?_, rfl, failureOutcome_ne env _ hne⟩
    · intro hm
      rcases List.mem_cons.mp hm with hm | hm
      · cases hm
      · rcases List.mem_cons.mp hm with hm | hm
        · cases hm
        · exact not_mem_failure_events env _ _ (by decide) hm
    · intro hm
      rcases List.mem_cons.mp hm with hm | hm
      · cases hm
      · rcases List.mem_cons.mp hm with hm | hm
        · cases hm
        · exact not_mem_failure_events env _ _ (by decide) hm
  have h2 : ¬ env.uartInit < E_NO_ERROR → env.pbInit ≠ E_NO_ERROR →
      Event.ledInit ∉ (Board_Init env).1 ∧
      (Board_Init env).2 = failureOutcome env env.pbInit ∧
      (Board_Init env).2 ≠ .returned E_NO_ERROR := by
    intro hc hp
    rw [Board_Init_pb_fails env hc hp]
    refine ⟨?_, rfl, failureOutcome_ne env _ hp⟩
    intro hm
    rcases List.mem_cons.mp hm with hm | hm
    · cases hm
    · rcases List.mem_cons.mp hm with hm | hm
      · cases hm
      · rcases List.mem_cons.mp hm with hm | hm
        · cases hm
        · exact not_mem_failure_events env _ _ (by decide) hm
  have h3 : ¬ env.uartInit < E_NO_ERROR → env.pbInit = E_NO_ERROR →
      env.ledInit ≠ E_NO_ERROR →
      (Board_Init env).2 = failureOutcome env env.ledInit ∧
      (Board_Init env).2 ≠ .returned E_NO_ERROR := by
    intro hc hp hl
    rw [Board_Init_led_fails env hc hp hl]
    exact ⟨rfl, failureOutcome_ne env _ hl⟩
  refine ⟨h1, h2, h3, ⟨?_, ?_⟩, fun _ => rfl⟩
  · intro hret
    by_cases hc : env.uartInit < E_NO_ERROR
    · exact absurd hret (h1 hc).2.2.2
    · by_cases hp : env.pbInit = E_NO_ERROR
      · by_cases hl : env.ledInit = E_NO_ERROR
        · exact ⟨hc, hp, hl⟩
        · exact absurd hret (h3 hc hp hl).2
      · exact absurd hret (h2 hc hp).2.2
  · rintro ⟨hc, hp, hl⟩
    rw [Board_Init_all_pass env hc hp hl]

theorem Board_Init_short_circuits_witness :
    Event.ledInit ∉ (Board_Init pbFailsEnv).1 ∧
      (Board_Init pbFailsEnv).2 = .returned (-1) ∧
      (Board_Init pbFailsEnv).2 ≠ .returned E_NO_ERROR :=
  ⟨((Board_Init_short_circuits pbFailsEnv).2.1 (by decide) (by decide)).1,
   ((Board_Init_short_circuits pbFailsEnv).2.1 (by decide) (by decide)).2.1,
   ((Board_Init_short_circuits pbFailsEnv).2.1 (by decide) (by decide)).2.2⟩

end Board
